import Mathlib

/-!
Shallow embedding of the RedditBots repository: the filter-chain, handler and
monitor core of `src/base_slinky.py`, and the StackOverflow post-rendering
and reply-selection model of `stackoverflow_api.py`, together with theorems
checking the specification's claims against this code.
-/

set_option autoImplicit false

/-- Python runtime errors that the embedded code can raise. -/
inductive PyError where
  | typeError
  | attributeError
  | notImplementedError
  | nameError
  deriving DecidableEq, Repr

namespace Slinky

/-- An item flowing through a monitor: a submission or a comment.  The field
`isComment` models the `isinstance(item, Comment)` tag for a comment monitor
(symmetrically `isinstance(item, Submission)` for a submission monitor);
`id` models the item's `id` attribute. -/
structure Item where
  id : Nat
  isComment : Bool
  deriving DecidableEq, Repr

/-- A rule object as `Filter.add_rule` receives it.  Python compares rules by
default object equality, which is identity, modelled by `oid`.  The field
`callable` models `callable(filter)`; `filterAttr` is the rule's `filter`
attribute when the object has one (`Filter.test` evaluates each rule via
`f.filter(item)`), as a boolean-valued predicate on items. -/
structure Rule where
  oid : Nat
  callable : Bool
  filterAttr : Option (Item → Bool)

/-- The membership test Python's `filter not in self.filters` performs on a
rule list: default `__eq__` is object identity. -/
def pyContains (l : List Rule) (f : Rule) : Bool :=
  l.any fun x => x.oid == f.oid

/-- The `Filter` class: a display name and an ordered list of rules. -/
structure Filter where
  name : String
  filters : List Rule

/-- `Filter.add_rule` (base_slinky.py lines 29-44):
`if filter not in self.filters and callable(filter): self.filters.append(filter)`. -/
def Filter.add_rule (self : Filter) (f : Rule) : Filter :=
  if !pyContains self.filters f && f.callable then
    { self with filters := self.filters ++ [f] }
  else
    self

/-- `Filter.remove_rule` (lines 46-50):
`if filter in self.filters: self.filters.remove(filter)`; `list.remove`
deletes the first occurrence. -/
def Filter.remove_rule (self : Filter) (f : Rule) : Filter :=
  if pyContains self.filters f then
    { self with filters := self.filters.eraseP fun x => x.oid == f.oid }
  else
    self

/-- The loop body of `Filter.test` (lines 63-67):
`for f in self.filters: if not f.filter(item): return True` followed by
`return False`.  Accessing `f.filter` on a rule without that attribute
raises `AttributeError`; when the attribute exists the loop returns `True`
(blocked) exactly when the attribute evaluates falsy on the item. -/
def testLoop (item : Item) : List Rule → Except PyError Bool
  | [] => Except.ok false
  | f :: fs =>
    match f.filterAttr with
    | none => Except.error PyError.attributeError
    | some fn =>
      if fn item then testLoop item fs else Except.ok true

/-- `Filter.test(item)` (lines 52-67). -/
def Filter.test (self : Filter) (item : Item) : Except PyError Bool :=
  testLoop item self.filters

/-- A method in a class body, identified by its name-mangled name.  Running
it on an item yields the log lines it emits, or the error it raises. -/
structure PyMethod where
  name : String
  run : Item → Except PyError (List String)

/-- Observable outcome of `BaseHandler.handle`:
`skipped` means the handler's own chain blocked the item and no action was
invoked; `acted` means the action ran and emitted the given log lines;
`raised` means an uncaught error propagated to the caller. -/
inductive HandleTrace where
  | skipped
  | acted (logs : List String)
  | raised (e : PyError)
  deriving DecidableEq, Repr

/-- A `BaseHandler` instance: its own filter chain (`self.filter`, a
`Filter()` by default, replaceable through `set_filter`) and the methods an
attribute lookup on the instance can find, in method-resolution order. -/
structure BaseHandler where
  filter : Filter
  methods : List PyMethod

/-- `BaseHandler.handle` (lines 172-176):
`if not self.filter.test(item): self.__handler_action(item)`.  The call site
sits in `BaseHandler`'s class body, so Python mangles it to
`self._BaseHandler__handler_action(item)`, looked up along the instance's
method-resolution order. -/
def BaseHandler.handle (self : BaseHandler) (item : Item) : HandleTrace :=
  match self.filter.test item with
  | Except.error e => HandleTrace.raised e
  | Except.ok true => HandleTrace.skipped
  | Except.ok false =>
    match self.methods.find? (fun m => m.name == "_BaseHandler__handler_action") with
    | none => HandleTrace.raised PyError.attributeError
    | some m =>
      match m.run item with
      | Except.ok logs => HandleTrace.acted logs
      | Except.error e => HandleTrace.raised e

/-- `BaseHandler.__handler_action` (lines 178-184): mangled to
`_BaseHandler__handler_action`; it raises `NotImplementedError`. -/
def baseHandlerAction : PyMethod :=
  ⟨"_BaseHandler__handler_action", fun _ => Except.error PyError.notImplementedError⟩

/-- `LoggerHandler.__handler_action` (lines 300-301): defined in
`LoggerHandler`'s class body, so its attribute name is mangled to
`_LoggerHandler__handler_action`; it logs the handled item. -/
def loggerHandlerAction : PyMethod :=
  ⟨"_LoggerHandler__handler_action", fun item => Except.ok ["handled item " ++ toString item.id]⟩

/-- The methods visible on a `LoggerHandler` instance, in method-resolution
order: the subclass's own entries precede the inherited `BaseHandler` ones. -/
def loggerHandlerMethods : List PyMethod :=
  [loggerHandlerAction, baseHandlerAction]

/-- A `LoggerHandler` whose own filter chain is `chain`. -/
def LoggerHandler.make (chain : Filter) : BaseHandler :=
  ⟨chain, loggerHandlerMethods⟩

/-- A rule of a monitor's own chain, as the monitor loop evaluates it: the
loop calls `f.test(comment)` on each rule `f` in `self.filters`. -/
structure MRule where
  oid : Nat
  test : Item → Bool

/-- The rule check inside the monitor loop (lines 219-221 and 263-265):
`for f in self.filters: if f.test(comment): continue`.  The `continue`
statement targets this inner `for`, so the loop evaluates the rules and then
falls through regardless of their verdicts. -/
def check_filters (filters : List MRule) (item : Item) : Unit :=
  filters.foldl (fun a f => if f.test item then a else a) ()

/-- The monitor loop shared by `CommentReader.monitor` (lines 209-227) and
`SubmissionReader.monitor_async` (lines 253-271), run on a finite feed.  Per
item: break out of the loop when the run flag has been cleared; skip
wrong-kind items after a type warning; run the inert rule check; dispatch to
every registered handler in registration order, recording the pair
`(handler, item.id)` per invocation.  `clears` says whether processing the
item clears the run flag (for example a handler setting `self.run = False`),
which the loop reads back at the next item boundary. -/
def monitorLoop (filters : List MRule) (handlers : List Nat) (clears : Item → Bool) :
    List Item → Bool → List (Nat × Nat)
  | [], _ => []
  | item :: feed, run =>
    if !run then
      []
    else if !item.isComment then
      monitorLoop filters handlers clears feed run
    else
      let _ := check_filters filters item
      (handlers.map fun h => (h, item.id)) ++
        monitorLoop filters handlers clears feed (run && !clears item)

/-- The dispatch events a list of fully processed items produces: every
handler, in registration order, invoked once per item. -/
def dispatchEvents (handlers : List Nat) : List Item → List (Nat × Nat)
  | [] => []
  | item :: items => (handlers.map fun h => (h, item.id)) ++ dispatchEvents handlers items

end Slinky

namespace SO

/-- Rendered markdown text, modelled as its character list (a Python `str`);
`len` is `List.length`, concatenation is `++`, and the slice `s[:n]` is
`List.take n`. -/
abbrev Md := List Char

/-- `POST_CHAR_MAX` (stackoverflow_api.py line 250). -/
def POST_CHAR_MAX : Nat := 10000

/-- `MAX_HIGHEST_RATED` (line 251). -/
def MAX_HIGHEST_RATED : Nat := 2

/-- `MIN_SCORE` (line 252). -/
def MIN_SCORE : Int := 20

/-- A StackOverflow comment as `Post.comments` builds it: the four values
that `Comment.reddit_post` interpolates, already rendered to text (`score`
is the decimal rendering of `metadata['score']`, `body` the unescaped
`body_markdown`, and so on). -/
structure Comment where
  score : Md
  link : Md
  body : Md
  author : Md

/-- `Comment.reddit_post` (lines 124-127): the interpolation
`[{score}]({link}) - {post_body} - {author}`. -/
def Comment.reddit_post (c : Comment) : Md :=
  "[".data ++ c.score ++ "](".data ++ c.link ++ ") - ".data ++ c.body
    ++ " - ".data ++ c.author

/-- A post as `Post.reddit_post` consumes it.  `title`, `body` and `footer`
hold the results of the dynamically dispatched `post_title`, `post_body` and
`post_footer` calls (the base `post_title` is the empty string, `Question`
overrides it, `Answer` overrides `post_footer`); `comment_count` is
`metadata['comment_count']`; `comments` is the list `Post.comments()`
builds from `metadata['comments']`. -/
structure Post where
  title : Md
  body : Md
  footer : Md
  comment_count : Nat
  comments : List Comment

/-- The fixed leading interpolation of `Post.reddit_post` (line 66):
`{post_title}\n\n{post_body}\n\n{post_footer}\n`. -/
def Post.header (p : Post) : Md :=
  p.title ++ "\n\n".data ++ p.body ++ "\n\n".data ++ p.footer ++ "\n".data

/-- The decimal rendering of the enumeration index, as `{i}` interpolates
it. -/
def natStr (n : Nat) : Md := (toString n).data

/-- The comment loop of `Post.reddit_post` (lines 70-75): enumerate the
comments starting at index `i`; for each one, render it, and if
`len(post_markdown) + len(rp) > POST_CHAR_MAX` break with the warning count
`len(self.comments()) - i + 1` (`n` is the full comment count); otherwise
append `\n{i}. {rp}` and continue.  The second component is the count the
truncation warning logs, when the loop broke. -/
def commentLoop (n : Nat) (acc : Md) : List Comment → Nat → Md × Option Nat
  | [], _ => (acc, none)
  | c :: rest, i =>
    let rp := c.reddit_post
    if POST_CHAR_MAX < acc.length + rp.length then
      (acc, some (n - i + 1))
    else
      commentLoop n (acc ++ "\n".data ++ natStr i ++ ". ".data ++ rp) rest (i + 1)

/-- `Post.reddit_post` before the final slice (lines 66-75): the header,
then, when `comment_count > 0`, the `\n_Comments_\n` separator followed by
the comment loop.  The second component is the skipped-comment warning. -/
def Post.assemble (p : Post) : Md × Option Nat :=
  if 0 < p.comment_count then
    commentLoop p.comments.length (p.header ++ "\n_Comments_\n".data) p.comments 1
  else
    (p.header, none)

/-- `Post.reddit_post` (lines 63-78): the assembled text, returned through
the final slice `post_markdown[:POST_CHAR_MAX]` (line 78). -/
def Post.reddit_post (p : Post) : Md :=
  (p.assemble).1.take POST_CHAR_MAX

/-- What the loop's append statement accumulates over a comment list without
any budget check, enumerating from `i`: used to state which prefix of the
comments the loop actually appended. -/
def appendFrom (acc : Md) : List Comment → Nat → Md
  | [], _ => acc
  | c :: rest, i =>
    appendFrom (acc ++ "\n".data ++ natStr i ++ ". ".data ++ c.reddit_post) rest (i + 1)

/-- An answer (lines 81-94): `is_accepted` and `score` from its metadata,
and the `Post` data its inherited `reddit_post` renders. -/
structure Answer where
  is_accepted : Bool
  score : Int
  post : Post

/-- `Answer.reddit_post` is the inherited `Post.reddit_post`. -/
def Answer.reddit_post (a : Answer) : Md := a.post.reddit_post

/-- A question (lines 97-113): its own `Post` data and the `Answer` list
that `Question.answers()` builds. -/
structure Question where
  post : Post
  answers : List Answer

/-- Python's `list.sort` sorts in place and returns `None`; this is the
value of the expression `hghrated.sort(key=lambda x: x.score())`. -/
def pyListSortResult (_l : List Answer) : Option (List Answer) := none

/-- Subscripting a possibly-`None` value with the slice `[:n]`: slicing
`None` raises `TypeError` (`'NoneType' object is not subscriptable`). -/
def pySliceAnswers (x : Option (List Answer)) (n : Nat) : Except PyError (List Answer) :=
  match x with
  | none => Except.error PyError.typeError
  | some l => Except.ok (l.take n)

/-- The per-question body of `Reddit.check_posts` (lines 168-187) for one
linked question, on the first loop iteration: post the top-level comment
`submission.reply(q.reddit_post())`, then, when the question has answers,
bind `accepted` and `hghrated` and evaluate
`hghrated.sort(key=lambda x: x.score())[:MAX_HIGHEST_RATED]` (line 180).
The result pairs the reply texts posted so far, in order, with the error
that aborts the iteration, if any.  The `Except.ok` arm is unreachable
because `list.sort` always returns `None`.  When there is no answer,
lines 186-187 read `accepted` and `hghrated`, names the first iteration has
never bound, so that path raises `NameError`. -/
def processQuestion (q : Question) : List Md × Option PyError :=
  let replies := [q.post.reddit_post]
  let answers := q.answers
  if 0 < answers.length then
    let _accepted := answers.filter fun a => a.is_accepted
    let hghrated := answers.filter fun a => decide (MIN_SCORE ≤ a.score)
    match pySliceAnswers (pyListSortResult hghrated) MAX_HIGHEST_RATED with
    | Except.error e => (replies, some e)
    | Except.ok _ => (replies, none)
  else
    (replies, some PyError.nameError)

end SO

namespace Slinky

/-- A concrete comment item for the evaluation theorems and witnesses. -/
def item0 : Item := ⟨0, true⟩

/-- A rule whose `filter` predicate returns `True` on every item: by the
documented convention (`add_rule` docstring, lines 29-41) it blocks every
item. -/
def rulePredTrue : Rule := ⟨0, true, some fun _ => true⟩

/-- A rule whose `filter` predicate returns `False` on every item: by the
documented convention it passes every item. -/
def rulePredFalse : Rule := ⟨1, true, some fun _ => false⟩

/-- A plain-callable rule without a `filter` attribute: the very form the
`add_rule` docstring documents (`(item) -> bool`). -/
def ruleNoAttr : Rule := ⟨2, true, none⟩

/-- An empty chain, as the `Filter()` constructor builds it. -/
def emptyChain : Filter := ⟨"()", []⟩

/-- A chain whose single rule has a constantly false predicate, so the code
of `Filter.test` blocks every item on it. -/
def blockChain : Filter := ⟨"()", [rulePredFalse]⟩

/-- A comment item with the given id. -/
def mItem (n : Nat) : Item := ⟨n, true⟩

/-- A monitor rule whose `test` returns `True` (blocked) on every item. -/
def mBlockRule : MRule := ⟨0, fun _ => true⟩

/-- Clearing discipline for the cancellation witness: processing the item
with id 2 clears the run flag. -/
def wClears : Item → Bool := fun i => i.id == 2

end Slinky

namespace SO

/-- A concrete comment for the witnesses. -/
def wComment : Comment := ⟨"1".data, "u".data, "c".data, "a".data⟩

/-- A concrete post with one comment. -/
def wPost : Post := ⟨"t".data, "b".data, "f".data, 1, [wComment]⟩

/-- A concrete accepted answer above the score threshold. -/
def wAnswer : Answer := ⟨true, 21, wPost⟩

/-- A concrete question with one answer. -/
def wQuestion : Question := ⟨wPost, [wAnswer]⟩

end SO

namespace Slinky

/-- One rule of the chain passes under the code of `Filter.test` exactly
when its `filter` attribute exists and returns `True` on the item. -/
def rulePasses (item : Item) (f : Rule) : Prop :=
  ∃ fn, f.filterAttr = some fn ∧ fn item = true

/-- When every rule of `fs` passes the item under the code of `Filter.test`
and `r` has no `filter` attribute, the test loop over `fs ++ [r]` reaches
`r` and raises `AttributeError`. -/
theorem testLoop_append_no_attr (item : Item) (r : Rule)
    (hattr : r.filterAttr = none) :
    ∀ fs : List Rule, (∀ f ∈ fs, rulePasses item f) →
      testLoop item (fs ++ [r]) = Except.error PyError.attributeError := by
  intro fs
  induction fs with
  | nil =>
    intro _
    simp [testLoop, hattr]
  | cons f fs ih =>
    intro hall
    obtain ⟨fn, hfn, hval⟩ := hall f (List.mem_cons_self f fs)
    simpa [testLoop, hfn, hval] using
      ih fun g hg => hall g (List.mem_cons_of_mem f hg)

/-- C1: evaluation of `Filter.test` at the failing input.  A chain whose
single rule has a predicate that returns `True` on the item — blocked, by
the convention the `add_rule` docstring documents — makes `test` return
`False` (pass), and a chain whose single rule has a predicate returning
`False` makes `test` return `True` (blocked): line 64 (`if not
f.filter(item): return True`) inverts the documented convention, so `test`
does not return true exactly when a rule blocks. -/
theorem filter_test_inverted_polarity :
    Filter.test ⟨"()", [rulePredTrue]⟩ item0 = Except.ok false ∧
    Filter.test ⟨"()", [rulePredFalse]⟩ item0 = Except.ok true :=
  ⟨rfl, rfl⟩

/-- C2: evaluation of the monitor loop at the failing input.  The monitor's
own chain holds one rule whose `test` blocks the item, yet the single
registered handler (7) is still dispatched the item (id 1): the `continue`
in the rule check advances only the inner rule loop, so a blocked item is
never skipped. -/
theorem monitor_dispatches_blocked_item :
    mBlockRule.test (mItem 1) = true ∧
    monitorLoop [mBlockRule] [7] (fun _ => false) [mItem 1] true = [(7, 1)] :=
  ⟨rfl, rfl⟩

/-- C9: `Filter.add_rule` is idempotent per unique rule.  Adding a rule that
is already in the chain leaves the object unchanged, and adding the same
rule twice is the same as adding it once, so duplicate insertion attempts
never grow the chain. -/
theorem add_rule_idempotent (self : Filter) (f : Rule) :
    (pyContains self.filters f = true → self.add_rule f = self) ∧
    (self.add_rule f).add_rule f = self.add_rule f := by
  constructor
  · intro h
    simp [Filter.add_rule, h]
  · by_cases hc : f.callable = true
    · by_cases hm : pyContains self.filters f = true
      · simp [Filter.add_rule, hm]
      · have hmem : pyContains (self.filters ++ [f]) f = true := by
          simp [pyContains]
        simp [Filter.add_rule, hm, hc, hmem]
    · simp [Filter.add_rule, hc]

/-- C9 witness: with the one-rule chain, the duplicate insertion is a no-op
and twice equals once on the empty chain. -/
theorem add_rule_idempotent_witness :
    pyContains blockChain.filters rulePredFalse = true ∧
    blockChain.add_rule rulePredFalse = blockChain ∧
    (emptyChain.add_rule rulePredFalse).add_rule rulePredFalse
      = emptyChain.add_rule rulePredFalse :=
  ⟨rfl, (add_rule_idempotent blockChain rulePredFalse).1 rfl,
    (add_rule_idempotent emptyChain rulePredFalse).2⟩

end Slinky

namespace SO

/-- C7: the string `Post.reddit_post` returns never exceeds the configured
character budget: whatever the accumulation did, the final slice
`post_markdown[:POST_CHAR_MAX]` caps its length at `POST_CHAR_MAX`. -/
theorem reddit_post_within_budget (p : Post) :
    (Post.reddit_post p).length ≤ POST_CHAR_MAX := by
  simp only [Post.reddit_post, List.length_take]
  exact Nat.min_le_left _ _

end SO

namespace Slinky

/-- C3: whenever the own filter chain of a `LoggerHandler` does not block an
item, `handle` raises `NotImplementedError` instead of logging it: the call
in `BaseHandler.handle` is name-mangled to `_BaseHandler__handler_action`,
which the `__handler_action` defined in `LoggerHandler` (mangled to
`_LoggerHandler__handler_action`) does not override, so the lookup always
finds the base not-implemented action. -/
theorem loggerHandler_handle_not_implemented (chain : Filter) (item : Item)
    (h : chain.test item = Except.ok false) :
    (LoggerHandler.make chain).handle item
      = HandleTrace.raised PyError.notImplementedError := by
  have hc : (LoggerHandler.make chain).filter.test item = Except.ok false := h
  unfold BaseHandler.handle
  rw [hc]
  rfl

/-- C3 witness: a `LoggerHandler` with the empty chain raises
`NotImplementedError` on a concrete item. -/
theorem loggerHandler_handle_not_implemented_witness :
    Filter.test emptyChain item0 = Except.ok false ∧
    (LoggerHandler.make emptyChain).handle item0
      = HandleTrace.raised PyError.notImplementedError :=
  ⟨rfl, loggerHandler_handle_not_implemented emptyChain item0 rfl⟩

/-- C5: for every handler and every item, when the handler's own filter
chain blocks the item (`test` returns true), `handle` never invokes the
handler's action: the outcome is `skipped`, in which no method runs and the
action invocation count stays zero. -/
theorem handle_blocked_no_action (self : BaseHandler) (item : Item)
    (hb : self.filter.test item = Except.ok true) :
    self.handle item = HandleTrace.skipped := by
  unfold BaseHandler.handle
  rw [hb]

/-- C5 witness: a handler whose chain blocks the concrete item skips it. -/
theorem handle_blocked_no_action_witness :
    (LoggerHandler.make blockChain).filter.test item0 = Except.ok true ∧
    (LoggerHandler.make blockChain).handle item0 = HandleTrace.skipped :=
  ⟨rfl, handle_blocked_no_action (LoggerHandler.make blockChain) item0 rfl⟩

/-- C10: `add_rule` accepts any callable rule without requiring the `filter`
attribute that `test` later reads.  For a rule `r` that is a plain callable
with no `filter` attribute, insertion appends it to the chain, and `test`
on the grown chain raises `AttributeError` instead of returning a verdict
whenever the rules before `r` all pass the item. -/
theorem add_rule_attrless_then_test_raises (self : Filter) (r : Rule)
    (item : Item) (hcall : r.callable = true) (hattr : r.filterAttr = none)
    (hnot : pyContains self.filters r = false)
    (hpass : ∀ f ∈ self.filters, rulePasses item f) :
    (self.add_rule r).filters = self.filters ++ [r] ∧
    (self.add_rule r).test item = Except.error PyError.attributeError := by
  have hadd : self.add_rule r = { self with filters := self.filters ++ [r] } := by
    simp [Filter.add_rule, hnot, hcall]
  constructor
  · rw [hadd]
  · rw [hadd]
    exact testLoop_append_no_attr item r hattr self.filters hpass

/-- C10 witness: adding the attribute-less callable rule of the `add_rule`
docstring to the empty chain succeeds, and `test` then raises
`AttributeError` on a concrete item. -/
theorem add_rule_attrless_then_test_raises_witness :
    ruleNoAttr.callable = true ∧ ruleNoAttr.filterAttr = none ∧
    (emptyChain.add_rule ruleNoAttr).filters = emptyChain.filters ++ [ruleNoAttr] ∧
    (emptyChain.add_rule ruleNoAttr).test item0 = Except.error PyError.attributeError :=
  ⟨rfl, rfl,
    (add_rule_attrless_then_test_raises emptyChain ruleNoAttr item0 rfl rfl rfl
      (by simp [emptyChain])).1,
    (add_rule_attrless_then_test_raises emptyChain ruleNoAttr item0 rfl rfl rfl
      (by simp [emptyChain])).2⟩

end Slinky

namespace SO

/-- C8: for every question with at least one answer, the per-question body
of `Reddit.check_posts` raises `TypeError` before any answer reply is
posted: `hghrated.sort(key=lambda x: x.score())` returns `None` and line 180
immediately subscripts that result with `[:MAX_HIGHEST_RATED]`, so the only
reply posted is the top-level question comment. -/
theorem check_posts_sort_slice_typeError (q : Question)
    (h : 0 < q.answers.length) :
    processQuestion q = ([q.post.reddit_post], some PyError.typeError) := by
  simp [processQuestion, pySliceAnswers, pyListSortResult, h]

/-- C8 witness: a concrete question with one answer aborts with `TypeError`
after posting only the question comment. -/
theorem check_posts_sort_slice_typeError_witness :
    0 < wQuestion.answers.length ∧
    processQuestion wQuestion
      = ([wQuestion.post.reddit_post], some PyError.typeError) :=
  ⟨by decide, check_posts_sort_slice_typeError wQuestion (by decide)⟩

end SO

namespace Slinky

/-- Once the run flag is cleared, the monitor loop dispatches nothing more:
the flag is read at the next item boundary and the loop breaks. -/
theorem monitorLoop_stopped (filters : List MRule) (handlers : List Nat)
    (clears : Item → Bool) (feed : List Item) :
    monitorLoop filters handlers clears feed false = [] := by
  cases feed <;> simp [monitorLoop]

/-- C4: cooperative cancellation.  On a finite feed of expected-kind items
split as `pre ++ t :: post`, where no item of `pre` clears the run flag and
processing `t` (the k-th item, with k = pre.length + 1) clears it, the loop
produces exactly the dispatch events of the first k items — each fully
dispatched to every handler — and nothing of `post`: the flag is read once
per item at the item boundary, so the in-flight dispatch of the current item
completes and exactly k items (not k + 1) are handled. -/
theorem monitor_cancel_dispatches_k_items (filters : List MRule)
    (handlers : List Nat) (clears : Item → Bool) (pre post : List Item)
    (t : Item) (hpre : ∀ i ∈ pre, clears i = false)
    (hkind : ∀ i ∈ pre, i.isComment = true)
    (htk : t.isComment = true) (ht : clears t = true) :
    monitorLoop filters handlers clears (pre ++ t :: post) true
      = dispatchEvents handlers (pre ++ [t]) := by
  induction pre with
  | nil =>
    simp [monitorLoop, dispatchEvents, htk, ht, monitorLoop_stopped]
  | cons a as ih =>
    have ha : clears a = false := hpre a (List.mem_cons_self a as)
    have hak : a.isComment = true := hkind a (List.mem_cons_self a as)
    have ih2 := ih (fun i hi => hpre i (List.mem_cons_of_mem a hi))
      (fun i hi => hkind i (List.mem_cons_of_mem a hi))
    simp [monitorLoop, dispatchEvents, hak, ha, ih2]

/-- C4 witness: on the feed 1, 2, 3 where processing item 2 clears the run
flag, exactly the first two items are dispatched to the handler. -/
theorem monitor_cancel_dispatches_k_items_witness :
    (∀ i ∈ [mItem 1], wClears i = false) ∧ (mItem 2).isComment = true ∧
    wClears (mItem 2) = true ∧
    monitorLoop [] [5] wClears ([mItem 1] ++ mItem 2 :: [mItem 3]) true
      = dispatchEvents [5] ([mItem 1] ++ [mItem 2]) :=
  ⟨by decide, by decide, by decide,
    monitor_cancel_dispatches_k_items [] [5] wClears [mItem 1] [mItem 3]
      (mItem 2) (by decide) (by decide) (by decide) (by decide)⟩

end Slinky

namespace SO

/-- Greedy characterization of the comment loop.  For any start state there
is a cut `k`: the loop returns exactly the accumulation of the first `k`
comments (with the source's warning count when it broke), every comment
before the cut passed the length check at its turn, and when the loop broke
the comment at the cut failed it. -/
theorem commentLoop_characterization (n : Nat) (cs : List Comment) :
    ∀ (acc : Md) (i : Nat),
      ∃ k, k ≤ cs.length ∧
        commentLoop n acc cs i
          = (appendFrom acc (cs.take k) i,
             if k < cs.length then some (n - (i + k) + 1) else none) ∧
        (∀ j (hj : j < cs.length), j < k →
          (appendFrom acc (cs.take j) i).length
              + ((cs.get ⟨j, hj⟩).reddit_post).length ≤ POST_CHAR_MAX) ∧
        (∀ hk : k < cs.length,
          POST_CHAR_MAX <
            (appendFrom acc (cs.take k) i).length
              + ((cs.get ⟨k, hk⟩).reddit_post).length) := by
  induction cs with
  | nil =>
    intro acc i
    refine ⟨0, Nat.le_refl 0, ?_, ?_, ?_⟩
    · simp [commentLoop, appendFrom]
    · intro j hj
      exact absurd hj (by simp)
    · intro hk
      exact absurd hk (by simp)
  | cons c rest ih =>
    intro acc i
    by_cases hb : POST_CHAR_MAX < acc.length + c.reddit_post.length
    · refine ⟨0, Nat.zero_le _, ?_, ?_, ?_⟩
      · simp [commentLoop, hb, appendFrom]
      · intro j hj hj0
        exact absurd hj0 (Nat.not_lt_zero j)
      · intro hk
        simpa [appendFrom] using hb
    · obtain ⟨k, hkle, heq, hfits, hover⟩ :=
        ih (acc ++ "\n".data ++ natStr i ++ ". ".data ++ c.reddit_post) (i + 1)
      refine ⟨k + 1, Nat.succ_le_succ hkle, ?_, ?_, ?_⟩
      · have hstep : commentLoop n acc (c :: rest) i
            = commentLoop n
                (acc ++ "\n".data ++ natStr i ++ ". ".data ++ c.reddit_post)
                rest (i + 1) := by
          simp [commentLoop, hb]
        have hsum : i + 1 + k = i + (k + 1) := by omega
        rw [hstep, heq, List.take_succ_cons]
        simp [appendFrom, List.length_cons, Nat.succ_lt_succ_iff, hsum]
      · intro j hj hjk
        cases j with
        | zero =>
          simpa [appendFrom] using Nat.le_of_not_lt hb
        | succ j =>
          have hj2 : j < rest.length := Nat.lt_of_succ_lt_succ (by simpa using hj)
          have hjk2 : j < k := Nat.lt_of_succ_lt_succ hjk
          simpa [List.take_succ_cons, appendFrom] using hfits j hj2 hjk2
      · intro hk
        have hk2 : k < rest.length := Nat.lt_of_succ_lt_succ (by simpa using hk)
        simpa [List.take_succ_cons, appendFrom] using hover hk2

/-- C6: for every post with a positive comment count, `Post.reddit_post`
accumulates the child-comment renderings one at a time and stops exactly at
the first comment whose rendering would push the accumulated text past
`POST_CHAR_MAX` (line 72 checks `len(post_markdown) + len(rp)`), logging the
count of the comments thereby skipped (`len(self.comments()) - i + 1`,
i.e. all comments from the cut on); when no comment overflows, all are
appended and no warning fires. -/
theorem reddit_post_comment_accumulation (p : Post)
    (hc : 0 < p.comment_count) :
    ∃ k, k ≤ p.comments.length ∧
      p.assemble
        = (appendFrom (p.header ++ "\n_Comments_\n".data) (p.comments.take k) 1,
           if k < p.comments.length then some (p.comments.length - k) else none) ∧
      (∀ j (hj : j < p.comments.length), j < k →
        (appendFrom (p.header ++ "\n_Comments_\n".data) (p.comments.take j) 1).length
            + ((p.comments.get ⟨j, hj⟩).reddit_post).length ≤ POST_CHAR_MAX) ∧
      (∀ hk : k < p.comments.length,
        POST_CHAR_MAX <
          (appendFrom (p.header ++ "\n_Comments_\n".data) (p.comments.take k) 1).length
            + ((p.comments.get ⟨k, hk⟩).reddit_post).length) := by
  obtain ⟨k, hkle, heq, hfits, hover⟩ :=
    commentLoop_characterization p.comments.length p.comments
      (p.header ++ "\n_Comments_\n".data) 1
  refine ⟨k, hkle, ?_, hfits, hover⟩
  have hassemble : p.assemble
      = commentLoop p.comments.length (p.header ++ "\n_Comments_\n".data)
          p.comments 1 := by
    simp [Post.assemble, hc]
  rw [hassemble, heq]
  have hwarn : (if k < p.comments.length
        then some (p.comments.length - (1 + k) + 1) else none)
      = (if k < p.comments.length then some (p.comments.length - k) else none) := by
    split_ifs with h
    · congr 1
      omega
    · rfl
  rw [hwarn]

/-- C6 witness: the concrete post with one short comment appends it whole
(the cut is at the end, no warning). -/
theorem reddit_post_comment_accumulation_witness :
    0 < wPost.comment_count ∧
    (∃ k, k ≤ wPost.comments.length ∧
      wPost.assemble
        = (appendFrom (wPost.header ++ "\n_Comments_\n".data) (wPost.comments.take k) 1,
           if k < wPost.comments.length then some (wPost.comments.length - k) else none) ∧
      (∀ j (hj : j < wPost.comments.length), j < k →
        (appendFrom (wPost.header ++ "\n_Comments_\n".data) (wPost.comments.take j) 1).length
            + ((wPost.comments.get ⟨j, hj⟩).reddit_post).length ≤ POST_CHAR_MAX) ∧
      (∀ hk : k < wPost.comments.length,
        POST_CHAR_MAX <
          (appendFrom (wPost.header ++ "\n_Comments_\n".data) (wPost.comments.take k) 1).length
            + ((wPost.comments.get ⟨k, hk⟩).reddit_post).length)) :=
  ⟨by decide, reddit_post_comment_accumulation wPost (by decide)⟩

end SO
